import Mathlib

/-!
# Verification of the Pokemon battle environment bridge

A shallow embedding of `examples/project-pikachu/poke_env/server/pokemon_environment.py`:
the `OpenEnvPokemonPlayer` decision resolver (mailbox, latch, action validation) and the
`PokemonEnvironment` facade (`reset`, `step`, reward computation, episode bookkeeping).

Python floats are modelled as exact rationals (`ℚ`), Python ints as `Int`/`Nat`,
`None`-able values as `Option`, and raised-and-caught exceptions as `Except`.
Nondeterministic external inputs (the live battle object, freshly drawn episode ids,
whether an `asyncio.wait_for` timed out) are passed as explicit parameters.
-/

namespace PokemonEnv

/-- `PokemonAction` from `poke_env/models.py`: the tagged action record sent by the
controller.  `action_type` is the literal string tag used by the Python code;
`action_index` is a non-negative integer (`Nat`). -/
structure PokemonAction where
  action_type : String
  action_index : Nat
  mega_evolve : Bool
  dynamax : Bool
  terastallize : Bool
  deriving DecidableEq, Repr

/-- A team member as far as reward computation observes it: the `fainted` flag and the
current HP fraction (`current_hp_fraction` in poke-env). -/
structure Pokemon where
  fainted : Bool
  current_hp_fraction : ℚ
  deriving DecidableEq, Repr

/-- The slice of the poke-env `Battle` object that `pokemon_environment.py` reads:
legal-action counts, modifier availability, teams, the opponent's active Pokemon,
turn number and outcome flags.  `available_moves`/`available_switches` are modelled by
their lengths since the code only indexes into them and takes `len`. -/
structure Battle where
  available_moves : Nat
  available_switches : Nat
  can_mega_evolve : Bool
  can_dynamax : Bool
  can_tera : Bool
  team : List Pokemon
  opponent_team : List Pokemon
  opponent_active_pokemon : Option Pokemon
  turn : Nat
  finished : Bool
  won : Bool
  lost : Bool
  deriving DecidableEq, Repr

/-- The orders `choose_move`/`_action_to_order` can return: a validated move order with
its (possibly cleared) modifier flags, a switch order, `ForfeitBattleOrder()`, or the
engine-chosen `choose_random_move` fallback. -/
inductive BattleOrder where
  | moveOrder (index : Nat) (mega dynamax tera : Bool)
  | switchOrder (index : Nat)
  | forfeit
  | random
  deriving DecidableEq, Repr

/-- The mutable fields of `OpenEnvPokemonPlayer`: the single action slot
(`_next_action`), the two `asyncio.Event`s (`_action_event`, `_turn_complete_event`)
modelled as booleans, and the error diagnostics (`_last_error`,
`_illegal_action_count`). -/
structure PlayerState where
  next_action : Option PokemonAction
  action_event : Bool
  turn_complete_event : Bool
  last_error : Option String
  illegal_action_count : Nat
  deriving DecidableEq, Repr

/-- `OpenEnvPokemonPlayer.__init__`: empty slot, both events unset, no error,
illegal-action counter 0. -/
def PlayerState.init : PlayerState :=
  { next_action := none
    action_event := false
    turn_complete_event := false
    last_error := none
    illegal_action_count := 0 }

/-- `OpenEnvPokemonPlayer.set_next_action` (the coroutine `_set_action` it schedules on
the battle loop): overwrite the slot, clear `_last_error`, set the action event. -/
def set_next_action (action : PokemonAction) (s : PlayerState) : PlayerState :=
  { s with next_action := some action, last_error := none, action_event := true }

/-- `OpenEnvPokemonPlayer._action_to_order`: translate a `PokemonAction` into a
`BattleOrder`, raising `ValueError` (modelled as `Except.error` with the message text)
on an empty legal set, an out-of-range index, or an unknown action type.  Requested
modifiers that are not currently available are cleared with a warning, not rejected. -/
def _action_to_order (action : PokemonAction) (battle : Battle) : Except String BattleOrder :=
  if action.action_type = "forfeit" then
    .ok .forfeit
  else if action.action_type = "move" then
    if battle.available_moves = 0 then
      .error "No moves available"
    else if battle.available_moves ≤ action.action_index then
      .error ("Move index " ++ toString action.action_index ++ " out of range (only "
        ++ toString battle.available_moves ++ " moves available)")
    else
      let mega := action.mega_evolve && battle.can_mega_evolve
      let dynamax := action.dynamax && battle.can_dynamax
      let tera := action.terastallize && battle.can_tera
      .ok (.moveOrder action.action_index mega dynamax tera)
  else if action.action_type = "switch" then
    if battle.available_switches = 0 then
      .error "No switches available"
    else if battle.available_switches ≤ action.action_index then
      .error ("Switch index " ++ toString action.action_index ++ " out of range (only "
        ++ toString battle.available_switches ++ " switches available)")
    else
      .ok (.switchOrder action.action_index)
  else if action.action_type = "default" then
    .ok .random
  else
    .error ("Unknown action type: " ++ action.action_type)

/-- `OpenEnvPokemonPlayer.choose_move`.  `timedOut` records whether the 60-second
`asyncio.wait_for` on the action event elapsed without the event being set.  On
timeout: record `"Action timeout"` and return a forfeit order (no latch signal, no
counter change).  Otherwise: consume the slot and clear the event; with no action,
fall back to a random move (no latch signal); with an action, translate it — on
success signal the latch and return the order, on `ValueError` record the message,
increment the illegal-action counter, signal the latch and fall back to a random
move. -/
def choose_move (s : PlayerState) (battle : Battle) (timedOut : Bool) :
    PlayerState × BattleOrder :=
  if timedOut then
    ({ s with last_error := some "Action timeout" }, .forfeit)
  else
    let action := s.next_action
    let s := { s with next_action := none, action_event := false }
    match action with
    | none => (s, .random)
    | some a =>
      match _action_to_order a battle with
      | .ok order => ({ s with turn_complete_event := true }, order)
      | .error e =>
          ({ s with
              last_error := some e
              illegal_action_count := s.illegal_action_count + 1
              turn_complete_event := true }, .random)

/-- The read of the mailbox slot inside `choose_move` (lines
`action = self._next_action; self._next_action = None; self._action_event.clear()`):
return the slot's content and the state with the slot cleared. -/
def take (s : PlayerState) : Option PokemonAction × PlayerState :=
  (s.next_action, { s with next_action := none, action_event := false })

/-- Number of fainted Pokemon in a team:
`sum(1 for p in team.values() if p.fainted)`. -/
def fainted_count (team : List Pokemon) : Nat :=
  (team.filter (·.fainted)).length

/-- The reward-shaping accumulators kept on `PokemonEnvironment`
(`_last_opponent_fainted`, `_last_player_fainted`, `_last_opponent_hp`).  The faint
accumulators are Python ints, the HP accumulator a Python float (exact `ℚ` here). -/
structure RewardAcc where
  last_opponent_fainted : Int
  last_player_fainted : Int
  last_opponent_hp : ℚ
  deriving DecidableEq, Repr

/-- The accumulator values set in `__init__` and restored by `reset()`:
`0`, `0`, `1.0`. -/
def RewardAcc.init : RewardAcc :=
  { last_opponent_fainted := 0, last_player_fainted := 0, last_opponent_hp := 1 }

/-- The `if battle.opponent_active_pokemon:` block of the dense branch of
`_compute_reward`: when an opponent is active, add `hp_delta * 0.05` to the reward
and store the current HP fraction in the accumulator; otherwise leave both alone. -/
def _opponent_hp_step (reward : ℚ) (acc : RewardAcc) (battle : Battle) :
    ℚ × RewardAcc :=
  match battle.opponent_active_pokemon with
  | some p =>
      let current_hp := p.current_hp_fraction
      let hp_delta := acc.last_opponent_hp - current_hp
      (reward + hp_delta * 0.05, { acc with last_opponent_hp := current_hp })
  | none => (reward, acc)

/-- `PokemonEnvironment._compute_reward`, as a function of the reward mode, the current
accumulators, the battle and the `done` flag; it returns the reward together with the
updated accumulators.  The unknown-mode branch of the Python code calls
`self._compute_reward(battle, done)` again when `done` holds; that self-call is modelled
with a `fuel` counter, `none` meaning the recursion exhausted the fuel (for every fuel,
in fact: the call repeats with identical arguments, so it never produces a value). -/
def _compute_reward (fuel : Nat) (reward_mode : String) (acc : RewardAcc)
    (battle : Battle) (done : Bool) : Option (ℚ × RewardAcc) :=
  if reward_mode = "sparse" then
    if !done then
      some (0, acc)
    else if battle.won then
      some (1, acc)
    else if battle.lost then
      some (-1, acc)
    else
      some (0, acc)
  else if reward_mode = "dense" then
    let opponent_fainted : Int := fainted_count battle.opponent_team
    let new_faint_count : Int := opponent_fainted - acc.last_opponent_fainted
    let reward : ℚ := (new_faint_count : ℚ) * 0.2
    let acc := { acc with last_opponent_fainted := opponent_fainted }
    let player_fainted : Int := fainted_count battle.team
    let new_player_faint : Int := player_fainted - acc.last_player_fainted
    let reward : ℚ := reward - (new_player_faint : ℚ) * 0.2
    let acc := { acc with last_player_fainted := player_fainted }
    let stepped := _opponent_hp_step reward acc battle
    let reward := stepped.1
    let acc := stepped.2
    let reward : ℚ :=
      if done then
        if battle.won then reward + 0.5
        else if battle.lost then reward - 0.5
        else reward
      else reward
    some (reward, acc)
  else
    if done then
      match fuel with
      | 0 => none
      | fuel + 1 => _compute_reward fuel reward_mode acc battle done
    else
      some (0, acc)

/-- The fields of the `PokemonState` record that `reset`/`step` maintain (`episode_id`
and `step_count` come from the `State` base class; the episode id, drawn from
`uuid.uuid4()`, is modelled as an opaque `Nat` supplied by the caller of `reset`). -/
structure EpisodeState where
  episode_id : Option Nat
  step_count : Nat
  is_battle_finished : Bool
  battle_winner : Option String
  deriving DecidableEq, Repr

/-- `PokemonState` as initialised in `PokemonEnvironment.__init__` (the base-class
defaults: no episode yet, zero steps, battle not finished, no winner). -/
def EpisodeState.init : EpisodeState :=
  { episode_id := none, step_count := 0, is_battle_finished := false,
    battle_winner := none }

/-- The observation fields this development reasons about, out of the
`PokemonObservation` built by `_battle_to_observation`: the legal-action index lists,
the turn number, the `done` flag, the `reward` field (nullable in the schema, hence
`Option ℚ`), and the two diagnostic metadata entries `step` may attach. -/
structure PokemonObservation where
  available_moves : List Nat
  available_switches : List Nat
  turn : Nat
  done : Bool
  reward : Option ℚ
  metadata_last_error : Option String
  metadata_illegal_action_count : Option Nat
  deriving DecidableEq, Repr

/-- The mutable state of one `PokemonEnvironment` instance: the construction-time
configuration (`reward_mode`, `max_turns`, `player_username`), the `PokemonState`
bookkeeping, the reward accumulators, and the player object. -/
structure EnvState where
  reward_mode : String
  max_turns : Nat
  player_username : String
  state : EpisodeState
  acc : RewardAcc
  player : PlayerState
  deriving DecidableEq, Repr

/-- `PokemonEnvironment.__init__` with the given configuration: fresh bookkeeping,
initial accumulators, freshly constructed player. -/
def EnvState.init (reward_mode : String) (max_turns : Nat) (player_username : String) :
    EnvState :=
  { reward_mode := reward_mode
    max_turns := max_turns
    player_username := player_username
    state := EpisodeState.init
    acc := RewardAcc.init
    player := PlayerState.init }

/-- `PokemonEnvironment._battle_to_observation`: build the observation from the battle;
when no reward is passed, compute it with `_compute_reward` (whose accumulator updates
are returned alongside).  `none` models the non-terminating unknown-mode recursion. -/
def _battle_to_observation (env : EnvState) (battle : Battle) (reward : Option ℚ)
    (done : Bool) (fuel : Nat) : Option (PokemonObservation × RewardAcc) :=
  let mk : ℚ → PokemonObservation := fun r =>
    { available_moves := List.range battle.available_moves
      available_switches := List.range battle.available_switches
      turn := battle.turn
      done := done
      reward := some r
      metadata_last_error := none
      metadata_illegal_action_count := none }
  match reward with
  | some r => some (mk r, env.acc)
  | none =>
    match _compute_reward fuel env.reward_mode env.acc battle done with
    | none => none
    | some (r, acc) => some (mk r, acc)

/-- The metadata attachment at the end of `PokemonEnvironment.step`:
`if self.player._last_error:` (false for `None` and for the empty string) copy
`last_error` and `illegal_action_count` into the observation's metadata. -/
def add_error_metadata (obs : PokemonObservation) (p : PlayerState) :
    PokemonObservation :=
  match p.last_error with
  | none => obs
  | some e =>
      if e = "" then obs
      else
        { obs with
            metadata_last_error := some e
            metadata_illegal_action_count := some p.illegal_action_count }

/-- `PokemonEnvironment.reset`, its successful path: the battle has started and is
given as `battle`; `new_episode_id` stands for the fresh `uuid.uuid4()`.  Resets the
three reward accumulators, rewrites the episode bookkeeping, and returns the initial
observation built with `reward=None, done=False`. -/
def reset (env : EnvState) (new_episode_id : Nat) (battle : Battle) (fuel : Nat) :
    Option (EnvState × PokemonObservation) :=
  let env := { env with acc := RewardAcc.init }
  let env :=
    { env with
        state :=
          { env.state with
              episode_id := some new_episode_id
              step_count := 0
              is_battle_finished := false
              battle_winner := none } }
  match _battle_to_observation env battle none false fuel with
  | none => none
  | some (obs, acc) => some ({ env with acc := acc }, obs)

/-- The episode-bookkeeping portion of `PokemonEnvironment.step`, after the turn wait:
increment `step_count`; `done` is the battle's `finished` flag; when finished, record
`is_battle_finished` and compute the winner tag; then force `done` when the step count
has reached `max_turns`.  Returns the updated `EpisodeState` and the final `done`. -/
def step_state_update (st : EpisodeState) (player_username : String) (battle : Battle)
    (max_turns : Nat) : EpisodeState × Bool :=
  let st := { st with step_count := st.step_count + 1 }
  let done := battle.finished
  let st :=
    if done then
      { st with
          is_battle_finished := true
          battle_winner :=
            some (if battle.won then player_username
              else if battle.lost then "opponent"
              else "tie") }
    else st
  let done := if max_turns ≤ st.step_count && !done then true else done
  (st, done)

/-- `PokemonEnvironment.step`, from the point where the turn wait returned: the battle
(as left by the turn) is `battle`, the player state (as left by `choose_move`) is
`env.player`.  Updates bookkeeping, snapshots the observation with `reward=None`, and
attaches the error metadata when `last_error` is set. -/
def step (env : EnvState) (battle : Battle) (fuel : Nat) :
    Option (EnvState × PokemonObservation) :=
  let (st, done) := step_state_update env.state env.player_username battle env.max_turns
  let env := { env with state := st }
  match _battle_to_observation env battle none done fuel with
  | none => none
  | some (obs, acc) =>
      some ({ env with acc := acc }, add_error_metadata obs env.player)

/-- The two `threading.Lock` objects created in `PokemonEnvironment.__init__`
(`self._reset_lock = Lock()`, `self._step_lock = Lock()`). -/
inductive LockId where
  | reset_lock
  | step_lock
  deriving DecidableEq, Repr

/-- The public methods of the `PokemonEnvironment` facade. -/
inductive ControllerMethod where
  | reset
  | step
  | close
  deriving DecidableEq, Repr

/-- Which locks each method's body holds, read off the `with` statements of the
source: `reset` runs under `self._reset_lock`, `step` under `self._step_lock`,
and `close` acquires no lock at all. -/
def locks_acquired : ControllerMethod → List LockId
  | .reset => [.reset_lock]
  | .step => [.step_lock]
  | .close => []

/-- Two method invocations on the same controller instance are serialized against
each other exactly when they acquire a common lock. -/
def shares_lock (m₁ m₂ : ControllerMethod) : Bool :=
  (locks_acquired m₁).any fun l => (locks_acquired m₂).contains l

/-- The operations that touch a live environment over its lifetime, as the caller
thread and the battle loop interleave them: a `set_next_action` submission, one
`choose_move` invocation on the battle loop, a successful `reset()`, and the
bookkeeping part of a `step()`. -/
inductive Op where
  | submit (a : PokemonAction)
  | turn (b : Battle) (timedOut : Bool)
  | doReset (new_episode_id : Nat) (b : Battle) (fuel : Nat)
  | doStep (b : Battle) (fuel : Nat)

/-- Apply one operation to the environment state (a failing `reset`/diverging
`step` leaves the state unchanged). -/
def apply_op (env : EnvState) : Op → EnvState
  | .submit a => { env with player := set_next_action a env.player }
  | .turn b timedOut => { env with player := (choose_move env.player b timedOut).1 }
  | .doReset new_episode_id b fuel =>
      match reset env new_episode_id b fuel with
      | some (env', _) => env'
      | none => env
  | .doStep b fuel =>
      match step env b fuel with
      | some (env', _) => env'
      | none => env

/-! ## Concrete fixtures used by counterexamples and witnesses -/

/-- A fresh battle snapshot: four legal moves, one legal switch, no special
mechanics available, everyone at full HP, battle not finished. -/
def battleFresh : Battle :=
  { available_moves := 4
    available_switches := 1
    can_mega_evolve := false
    can_dynamax := false
    can_tera := false
    team := [⟨false, 1⟩, ⟨false, 1⟩]
    opponent_team := [⟨false, 1⟩, ⟨false, 1⟩]
    opponent_active_pokemon := some ⟨false, 1⟩
    turn := 1
    finished := false
    won := false
    lost := false }

/-- A sparse-mode environment as constructed with the default configuration. -/
def envSparse : EnvState := EnvState.init "sparse" 1000 "player_one"

/-- A move action requesting mega evolution. -/
def actionMega : PokemonAction :=
  { action_type := "move", action_index := 0, mega_evolve := true,
    dynamax := false, terastallize := false }

/-- A move action with an out-of-range index (99 with only 4 legal moves). -/
def actionIdx99 : PokemonAction :=
  { action_type := "move", action_index := 99, mega_evolve := false,
    dynamax := false, terastallize := false }

/-! ## Helper lemmas -/

/-- A string with a nonempty left part stays nonempty under append. -/
theorem append_ne_empty_of_left (s t : String) (h : s.length ≠ 0) : s ++ t ≠ "" := by
  intro hc
  apply h
  have hlen := congrArg String.length hc
  rw [String.length_append, String.length_empty] at hlen
  omega

/-- Appending on the right preserves a nonzero length. -/
theorem append_left_length_pos (s t : String) (h : s.length ≠ 0) :
    (s ++ t).length ≠ 0 := by
  rw [String.length_append]
  omega

/-! ## C1 — decision timeout handling -/

/-- **C1** counterexample: the claim says that on a decision timeout `choose_move`
signals the turn-completion latch and resolves the turn with a default/engine-chosen
action.  At a concrete input it does neither: the latch stays unsignaled and the
returned order is a forfeit, not the engine-chosen random fallback. -/
theorem C1_counterexample :
    (choose_move PlayerState.init battleFresh true).1.turn_complete_event = false ∧
    (choose_move PlayerState.init battleFresh true).2 = BattleOrder.forfeit ∧
    (choose_move PlayerState.init battleFresh true).2 ≠ BattleOrder.random := by
  refine ⟨rfl, rfl, by decide⟩

/-- **C1** (amended): for every turn in which no action arrives within the decision
timeout, `choose_move` records `"Action timeout"` as the last error and resolves the
turn with a forfeit order — it does not signal the turn-completion latch and does not
choose an engine default — and the timeout is never surfaced as a fatal error to the
caller (the resolver returns an order normally, leaving all other player fields
unchanged). -/
theorem C1_timeout_resolution (s : PlayerState) (battle : Battle) :
    choose_move s battle true =
      ({ s with last_error := some "Action timeout" }, BattleOrder.forfeit) := by
  simp [choose_move]

/-! ## C4 — sparse reward mode -/

/-- **C4** (confirmed): in sparse mode the computed reward is exactly 0 on every
non-terminal step; on the terminal step it is exactly +1 when the battle is won, −1
when it is lost, and 0 for a tie (neither won nor lost); the accumulators are left
untouched. -/
theorem C4_sparse_reward (fuel : Nat) (acc : RewardAcc) (battle : Battle) (done : Bool) :
    _compute_reward fuel "sparse" acc battle done =
      some ((if !done then 0
        else if battle.won then 1
        else if battle.lost then -1
        else 0 : ℚ), acc) := by
  rw [_compute_reward.eq_def]
  cases done <;> cases hw : battle.won <;> cases hl : battle.lost <;> simp [hw, hl]

/-! ## C9 — unknown reward mode recursion -/

/-- **C9** (confirmed): for every reward mode other than `"sparse"` and `"dense"`,
`_compute_reward` returns 0.0 on every non-terminal step, but on a terminal step it
re-invokes itself with the same unknown mode, so no amount of fuel produces a value —
the recursion never terminates instead of falling back to sparse as the code comment
announces. -/
theorem C9_unknown_mode (mode : String) (h₁ : mode ≠ "sparse") (h₂ : mode ≠ "dense") :
    (∀ fuel acc battle, _compute_reward fuel mode acc battle true = none) ∧
    (∀ fuel acc battle, _compute_reward fuel mode acc battle false = some (0, acc)) := by
  constructor
  · intro fuel
    induction fuel with
    | zero => intro acc battle; rw [_compute_reward.eq_def]; simp [h₁, h₂]
    | succ n ih =>
        intro acc battle
        rw [_compute_reward.eq_def]
        simp only [if_neg h₁, if_neg h₂, if_pos rfl]
        exact ih acc battle
  · intro fuel acc battle
    rw [_compute_reward.eq_def]
    simp [h₁, h₂]

/-- **C9** witness: the unknown mode `"custom"` at concrete inputs — `none` for
fuel 5 at a terminal step, reward 0 at a non-terminal step. -/
theorem C9_witness :
    _compute_reward 5 "custom" RewardAcc.init battleFresh true = none ∧
    _compute_reward 5 "custom" RewardAcc.init battleFresh false =
      some (0, RewardAcc.init) :=
  ⟨(C9_unknown_mode "custom" (by decide) (by decide)).1 5 RewardAcc.init battleFresh,
   (C9_unknown_mode "custom" (by decide) (by decide)).2 5 RewardAcc.init battleFresh⟩

/-! ## C7 — mailbox last-write-wins -/

/-- Folding a nonempty run of `set_next_action` submissions leaves the last
submitted action in the slot. -/
theorem foldl_set_next_action (l : List PokemonAction) :
    ∀ (s : PlayerState) (a : PokemonAction),
      ((a :: l).foldl (fun s x => set_next_action x s) s).next_action =
        some ((a :: l).getLast (List.cons_ne_nil a l)) := by
  induction l with
  | nil => intro s a; simp [set_next_action]
  | cons b l ih =>
      intro s a
      rw [List.getLast_cons (List.cons_ne_nil b l)]
      exact ih (set_next_action a s) b

/-- **C7** (confirmed): for every sequence of `set_next_action` submissions made
before a single take, the take that follows returns exactly the most recently
submitted action (last-write-wins, no queueing), and clears the slot so a second
take finds no action. -/
theorem C7_last_write_wins (s : PlayerState) (a : PokemonAction)
    (l : List PokemonAction) :
    (take ((a :: l).foldl (fun s x => set_next_action x s) s)).1 =
      some ((a :: l).getLast (List.cons_ne_nil a l)) ∧
    (take (take ((a :: l).foldl (fun s x => set_next_action x s) s)).2).1 = none := by
  exact ⟨foldl_set_next_action l s a, rfl⟩

/-! ## C5 — dense reward mode -/

/-- **C5** (confirmed; stated for turns with an opponent Pokemon active, the only case
in which a current opponent HP fraction exists): in dense mode the computed per-step
reward equals `0.2 × (Δ opponent-faints) − 0.2 × (Δ self-faints) + 0.05 × (previous
opponent HP fraction − current opponent HP fraction)`, plus a terminal bonus of `+0.5`
on a won terminal step and `−0.5` on a lost one (0 for a tie), all deltas taken against
the stored accumulators; and the three accumulators are updated to the current values
alongside. -/
theorem C5_dense_reward (fuel : Nat) (acc : RewardAcc) (battle : Battle) (done : Bool)
    (p : Pokemon) (hp : battle.opponent_active_pokemon = some p) :
    _compute_reward fuel "dense" acc battle done =
      some (0.2 * ((fainted_count battle.opponent_team : ℚ) - (acc.last_opponent_fainted : ℚ))
          - 0.2 * ((fainted_count battle.team : ℚ) - (acc.last_player_fainted : ℚ))
          + 0.05 * (acc.last_opponent_hp - p.current_hp_fraction)
          + (if done then
               if battle.won then (0.5 : ℚ) else if battle.lost then -0.5 else 0
             else 0),
        { last_opponent_fainted := (fainted_count battle.opponent_team : Int)
          last_player_fainted := (fainted_count battle.team : Int)
          last_opponent_hp := p.current_hp_fraction }) := by
  rw [_compute_reward.eq_def]
  simp only [_opponent_hp_step, hp]
  cases done <;> cases hw : battle.won <;> cases hl : battle.lost <;>
    · simp [hw, hl]
      ring

/-- **C5** witness: the dense reward at a concrete fresh battle with the initial
accumulators, computed at a non-terminal step. -/
theorem C5_witness :
    _compute_reward 0 "dense" RewardAcc.init battleFresh false =
      some (0.2 * ((fainted_count battleFresh.opponent_team : ℚ)
              - ((RewardAcc.init).last_opponent_fainted : ℚ))
          - 0.2 * ((fainted_count battleFresh.team : ℚ)
              - ((RewardAcc.init).last_player_fainted : ℚ))
          + 0.05 * ((RewardAcc.init).last_opponent_hp
              - Pokemon.current_hp_fraction ⟨false, 1⟩)
          + (if false then
               if battleFresh.won then (0.5 : ℚ)
               else if battleFresh.lost then -0.5 else 0
             else 0),
        { last_opponent_fainted := (fainted_count battleFresh.opponent_team : Int)
          last_player_fainted := (fainted_count battleFresh.team : Int)
          last_opponent_hp := Pokemon.current_hp_fraction ⟨false, 1⟩ }) :=
  C5_dense_reward 0 RewardAcc.init battleFresh false ⟨false, 1⟩ rfl

/-! ## C3 — reset bookkeeping -/

/-- At a non-terminal step the reward computation always produces a value, whatever
the mode (the unknown-mode recursion only triggers when `done` holds). -/
theorem compute_reward_not_done_some (fuel : Nat) (mode : String) (acc : RewardAcc)
    (battle : Battle) :
    ∃ r acc', _compute_reward fuel mode acc battle false = some (r, acc') := by
  rw [_compute_reward.eq_def]
  by_cases hs : mode = "sparse"
  · simp [hs]
  · by_cases hd : mode = "dense"
    · simp only [if_neg hs, if_pos hd]
      exact ⟨_, _, rfl⟩
    · simp [hs, hd]

/-- **C3** counterexample: the claim says the observation returned by a successful
`reset()` has a null/unset reward; at a concrete sparse-mode input the returned
observation's reward is the computed value `0`, not null. -/
theorem C3_counterexample :
    ((reset envSparse 7 battleFresh 0).map fun r => r.2.reward) = some (some 0) ∧
    ¬ ((reset envSparse 7 battleFresh 0).map fun r => r.2.reward) = some none := by
  refine ⟨rfl, by decide⟩

/-- **C3** (amended): every successful `reset()` assigns the freshly drawn episode id,
zeroes the step counter, resets the reward-shaping accumulators to `(0, 0, 1.0)`
before snapshotting, and returns an initial observation whose terminal flag is false
and whose reward is the value computed by the reward computer for a non-terminal step
(`0.0` in sparse mode) — a number, not null. -/
theorem C3_reset_bookkeeping (env : EnvState) (new_episode_id : Nat) (battle : Battle)
    (fuel : Nat) :
    ∃ r acc,
      _compute_reward fuel env.reward_mode RewardAcc.init battle false = some (r, acc) ∧
      (env.reward_mode = "sparse" → r = 0) ∧
      reset env new_episode_id battle fuel = some
        ({ env with
            state := { episode_id := some new_episode_id, step_count := 0,
                       is_battle_finished := false, battle_winner := none }
            acc := acc },
         { available_moves := List.range battle.available_moves
           available_switches := List.range battle.available_switches
           turn := battle.turn
           done := false
           reward := some r
           metadata_last_error := none
           metadata_illegal_action_count := none }) := by
  obtain ⟨r, acc, hcr⟩ := compute_reward_not_done_some fuel env.reward_mode
    RewardAcc.init battle
  refine ⟨r, acc, hcr, ?_, ?_⟩
  · intro hs
    rw [hs, _compute_reward.eq_def] at hcr
    simp at hcr
    exact hcr.1.symm
  · simp only [reset, _battle_to_observation]
    rw [hcr]

/-! ## C6 — step bookkeeping and terminal detection -/

/-- **C6** counterexample: the claim says the winner tag is computed whenever the
terminal flag is true; at a concrete input where termination is forced solely by
the max-turn cap (step count reaches `max_turns = 3` with the battle unfinished),
the step is terminal yet the winner tag remains unset. -/
theorem C6_counterexample :
    (step_state_update
      { episode_id := some 1, step_count := 2, is_battle_finished := false,
        battle_winner := none } "player_one" battleFresh 3).2 = true ∧
    (step_state_update
      { episode_id := some 1, step_count := 2, is_battle_finished := false,
        battle_winner := none } "player_one" battleFresh 3).1.battle_winner = none ∧
    battleFresh.finished = false := by
  refine ⟨rfl, rfl, rfl⟩

/-- **C6** (amended): every `step()` increments the step counter by exactly one, and
the returned terminal flag is true iff the simulation reports completion or the
incremented step counter has reached the configured maximum turn count; the winner
tag is computed from the simulation outcome (self wins / opponent wins / tie) when the
simulation itself reports completion, and is left unchanged (unset) when termination
is forced solely by the max-turn cap. -/
theorem C6_step_bookkeeping (st : EpisodeState) (username : String) (battle : Battle)
    (max_turns : Nat) :
    (step_state_update st username battle max_turns).1.step_count = st.step_count + 1 ∧
    ((step_state_update st username battle max_turns).2 = true ↔
      (battle.finished = true ∨ max_turns ≤ st.step_count + 1)) ∧
    (step_state_update st username battle max_turns).1.battle_winner =
      (if battle.finished then
        some (if battle.won then username
          else if battle.lost then "opponent"
          else "tie")
       else st.battle_winner) ∧
    (step_state_update st username battle max_turns).1.is_battle_finished =
      (if battle.finished then true else st.is_battle_finished) := by
  cases hf : battle.finished <;> simp [step_state_update, hf]

/-! ## C2 — invalid actions: out-of-range indices and unavailable modifiers -/

/-- **C2** counterexample: the claim says a Move action requesting a modifier that is
not currently available fails with an invalid-action error, increments the
illegal-action counter and records error text.  At a concrete input (mega evolution
requested while `can_mega_evolve` is false, index in range) resolution instead
succeeds with the flag silently cleared: no error is raised, the counter stays 0, no
error text is recorded, and the step metadata stays empty. -/
theorem C2_counterexample :
    _action_to_order actionMega battleFresh =
      Except.ok (BattleOrder.moveOrder 0 false false false) ∧
    PlayerState.illegal_action_count
      (choose_move (set_next_action actionMega PlayerState.init) battleFresh false).1
      = 0 ∧
    PlayerState.last_error
      (choose_move (set_next_action actionMega PlayerState.init) battleFresh false).1
      = none ∧
    (∀ obs, add_error_metadata obs
      (choose_move (set_next_action actionMega PlayerState.init) battleFresh false).1
        = obs) := by
  refine ⟨rfl, rfl, rfl, fun obs => rfl⟩

/-- The shared fallback path of `choose_move`: when `_action_to_order` raises, the
resolver falls back to a random order, records the error text, increments the
illegal-action counter, and still signals the turn-completion latch. -/
theorem choose_move_error_fallback (p : PlayerState) (battle : Battle)
    (a : PokemonAction) (e : String) (ho : _action_to_order a battle = .error e) :
    choose_move (set_next_action a p) battle false =
      ({ next_action := none, action_event := false, turn_complete_event := true,
         last_error := some e,
         illegal_action_count := p.illegal_action_count + 1 }, BattleOrder.random) := by
  simp [choose_move, set_next_action, ho]

/-- **C2** (amended): for every Move or Switch action whose index is out of range of
the currently legal moves/switches, resolution fails with an invalid-action error that
is recovered locally: the resolver falls back to a random order, increments the
illegal-action counter, records non-empty error text, and still signals the latch;
the step metadata then carries that error text and an illegal-action count ≥ 1.
(A requested but unavailable mega/dynamax/tera modifier is *not* an error: the flag is
silently cleared, as the counterexample shows.) -/
theorem C2_out_of_range_fallback (p : PlayerState) (battle : Battle)
    (a : PokemonAction)
    (h : (a.action_type = "move" ∧ battle.available_moves ≤ a.action_index) ∨
         (a.action_type = "switch" ∧ battle.available_switches ≤ a.action_index)) :
    ∃ e, e ≠ "" ∧
      choose_move (set_next_action a p) battle false =
        ({ next_action := none, action_event := false, turn_complete_event := true,
           last_error := some e,
           illegal_action_count := p.illegal_action_count + 1 }, BattleOrder.random) ∧
      (∀ obs, add_error_metadata obs
          (choose_move (set_next_action a p) battle false).1 =
        { obs with
            metadata_last_error := some e
            metadata_illegal_action_count := some (p.illegal_action_count + 1) }) ∧
      1 ≤ p.illegal_action_count + 1 := by
  have herr : ∃ e, e ≠ "" ∧ _action_to_order a battle = .error e := by
    rcases h with ⟨hty, hidx⟩ | ⟨hty, hidx⟩
    · by_cases h0 : battle.available_moves = 0
      · exact ⟨"No moves available", by decide, by simp [_action_to_order, hty, h0]⟩
      · refine ⟨"Move index " ++ toString a.action_index ++ " out of range (only "
          ++ toString battle.available_moves ++ " moves available)",
          append_ne_empty_of_left _ _ (append_left_length_pos _ _
            (append_left_length_pos _ _ (append_left_length_pos _ _ (by decide)))),
          ?_⟩
        simp [_action_to_order, hty, h0, hidx]
    · by_cases h0 : battle.available_switches = 0
      · exact ⟨"No switches available", by decide, by simp [_action_to_order, hty, h0]⟩
      · refine ⟨"Switch index " ++ toString a.action_index ++ " out of range (only "
          ++ toString battle.available_switches ++ " switches available)",
          append_ne_empty_of_left _ _ (append_left_length_pos _ _
            (append_left_length_pos _ _ (append_left_length_pos _ _ (by decide)))),
          ?_⟩
        simp [_action_to_order, hty, h0, hidx]
  obtain ⟨e, hne, ho⟩ := herr
  refine ⟨e, hne, choose_move_error_fallback p battle a e ho, ?_, Nat.le_add_left 1 _⟩
  intro obs
  rw [choose_move_error_fallback p battle a e ho]
  simp [add_error_metadata, hne]

/-- **C2** witness: submitting move index 99 when only 4 legal moves exist, from a
freshly constructed player. -/
theorem C2_witness :
    ∃ e, e ≠ "" ∧
      choose_move (set_next_action actionIdx99 PlayerState.init) battleFresh false =
        ({ next_action := none, action_event := false, turn_complete_event := true,
           last_error := some e,
           illegal_action_count := PlayerState.init.illegal_action_count + 1 },
         BattleOrder.random) ∧
      (∀ obs, add_error_metadata obs
          (choose_move (set_next_action actionIdx99 PlayerState.init)
            battleFresh false).1 =
        { obs with
            metadata_last_error := some e
            metadata_illegal_action_count :=
              some (PlayerState.init.illegal_action_count + 1) }) ∧
      1 ≤ PlayerState.init.illegal_action_count + 1 :=
  C2_out_of_range_fallback PlayerState.init battleFresh actionIdx99
    (Or.inl ⟨rfl, by decide⟩)

/-! ## C8 — which lock serializes what -/

/-- **C8** counterexample: the claim says a single caller-side lock serializes
`reset()`, `step()` and `close()` against each other.  In the code `reset` holds
`_reset_lock`, `step` holds the distinct `_step_lock`, and `close` holds no lock, so
`reset` and `step` acquire no common lock and are not mutually exclusive. -/
theorem C8_counterexample :
    shares_lock ControllerMethod.reset ControllerMethod.step = false ∧
    locks_acquired ControllerMethod.reset ≠ locks_acquired ControllerMethod.step ∧
    locks_acquired ControllerMethod.close = [] := by
  refine ⟨rfl, by decide, rfl⟩

/-- **C8** (amended): `reset()` is serialized against concurrent `reset()` calls by
`_reset_lock` and `step()` against concurrent `step()` calls by the separate
`_step_lock`; `close()` acquires no lock; no lock is shared between distinct methods,
so a `reset()` can execute concurrently with a `step()` on the same controller. -/
theorem C8_locking :
    shares_lock ControllerMethod.reset ControllerMethod.reset = true ∧
    shares_lock ControllerMethod.step ControllerMethod.step = true ∧
    shares_lock ControllerMethod.reset ControllerMethod.step = false ∧
    shares_lock ControllerMethod.reset ControllerMethod.close = false ∧
    shares_lock ControllerMethod.step ControllerMethod.close = false ∧
    locks_acquired ControllerMethod.close = [] := by
  decide

/-! ## C10 — the illegal-action counter is monotone and survives reset -/

/-- One `choose_move` invocation leaves the illegal-action counter unchanged or
increments it by exactly one. -/
theorem choose_move_illegal_count_step (s : PlayerState) (battle : Battle)
    (timedOut : Bool) :
    (choose_move s battle timedOut).1.illegal_action_count = s.illegal_action_count ∨
    (choose_move s battle timedOut).1.illegal_action_count =
      s.illegal_action_count + 1 := by
  cases timedOut with
  | true => left; rfl
  | false =>
      rcases hn : s.next_action with _ | a
      · left; simp [choose_move, hn]
      · rcases ho : _action_to_order a battle with e | order
        · right; simp [choose_move, hn, ho]
        · left; simp [choose_move, hn, ho]

/-- A successful `reset()` never touches the player object, in particular not its
illegal-action counter or last error. -/
theorem reset_preserves_player (env : EnvState) (new_episode_id : Nat) (battle : Battle)
    (fuel : Nat) (result : EnvState × PokemonObservation)
    (h : reset env new_episode_id battle fuel = some result) :
    result.1.player = env.player := by
  simp only [reset] at h
  split at h
  · exact absurd h (by simp)
  · rw [← Option.some_inj.mp h]

/-- A `step()` never touches the player object from the caller side (the counter only
moves inside `choose_move` on the battle loop). -/
theorem step_preserves_player (env : EnvState) (battle : Battle) (fuel : Nat)
    (result : EnvState × PokemonObservation)
    (h : step env battle fuel = some result) :
    result.1.player = env.player := by
  simp only [step] at h
  split at h
  · exact absurd h (by simp)
  · rw [← Option.some_inj.mp h]

/-- Each lifecycle operation either preserves the illegal-action counter or
increments it by exactly one. -/
theorem apply_op_illegal_count_step (env : EnvState) (op : Op) :
    (apply_op env op).player.illegal_action_count =
      env.player.illegal_action_count ∨
    (apply_op env op).player.illegal_action_count =
      env.player.illegal_action_count + 1 := by
  cases op with
  | submit a => left; rfl
  | turn b timedOut => exact choose_move_illegal_count_step env.player b timedOut
  | doReset new_episode_id b fuel =>
      left
      rcases heq : reset env new_episode_id b fuel with _ | ⟨env', obs⟩
      · simp [apply_op, heq]
      · simp only [apply_op, heq]
        rw [reset_preserves_player env new_episode_id b fuel (env', obs) heq]
  | doStep b fuel =>
      left
      rcases heq : step env b fuel with _ | ⟨env', obs⟩
      · simp [apply_op, heq]
      · simp only [apply_op, heq]
        rw [step_preserves_player env b fuel (env', obs) heq]

/-- **C10** (confirmed): the illegal-action counter starts at 0 when the environment
is constructed, every lifecycle operation leaves it unchanged or increments it by
exactly one (the increment happening only on the invalid-action fallback inside
`choose_move`), a successful `reset()` leaves it exactly as it was, and along every
interleaving of submits, turns, resets and steps it is monotonically non-decreasing —
so the count reported in step metadata accumulates across episodes rather than
restarting at 0. -/
theorem C10_illegal_count_monotone :
    (∀ reward_mode max_turns player_username,
      (EnvState.init reward_mode max_turns player_username).player.illegal_action_count
        = 0) ∧
    (∀ env op,
      (apply_op env op).player.illegal_action_count =
        env.player.illegal_action_count ∨
      (apply_op env op).player.illegal_action_count =
        env.player.illegal_action_count + 1) ∧
    (∀ env new_episode_id battle fuel,
      (apply_op env (Op.doReset new_episode_id battle fuel)).player.illegal_action_count
        = env.player.illegal_action_count) ∧
    (∀ env ops,
      env.player.illegal_action_count ≤
        (List.foldl apply_op env ops).player.illegal_action_count) := by
  refine ⟨fun _ _ _ => rfl, apply_op_illegal_count_step, ?_, ?_⟩
  · intro env new_episode_id battle fuel
    rcases heq : reset env new_episode_id battle fuel with _ | ⟨env', obs⟩
    · simp [apply_op, heq]
    · simp only [apply_op, heq]
      rw [reset_preserves_player env new_episode_id battle fuel (env', obs) heq]
  · intro env ops
    induction ops generalizing env with
    | nil => exact Nat.le_refl _
    | cons op ops ih =>
        rw [List.foldl_cons]
        refine Nat.le_trans ?_ (ih (apply_op env op))
        rcases apply_op_illegal_count_step env op with h | h <;> omega

end PokemonEnv
